import Mathlib

/-!
# Verification of the Sentinel surveillance backend's fan-out core

A shallow embedding of the event-ingestion, WebSocket-broadcast and
push-notification subsystems of the backend (`backend/app/routers/events.py`,
`backend/app/websocket.py`, `backend/app/push.py`, `backend/app/main.py`),
together with theorems settling the specification's claims about them.

Conventions of the embedding:
* Python dicts keyed by strings become association lists `List (String × α)`
  iterated in insertion order (as Python dicts are); dict assignment keeps the
  position of an existing key and appends a fresh one.
* The SQLAlchemy session becomes an explicit `DbSession` state: `flush` moves a
  new row with a freshly assigned id into the pending list, `commit` appends the
  pending rows to the committed table, `rollback` discards the pending rows.
  Query visibility is the committed table.
* External effects whose outcome the code merely observes (a WebSocket
  `send_text`, a `webpush` delivery, EC key generation) are modelled by outcome
  oracles passed in as functions.
* Python truthiness tests on optional strings / ints (`if event.employee_id:`,
  `details or default_body`, `if event_id`) are modelled by explicit `pyTruthy*`
  helpers: `None`, the empty string and the integer 0 are falsy.
-/

namespace Sentinel

/-! ## Data model (`backend/app/models.py`, `backend/app/schemas.py`) -/

/-- A row of the `devices` table, restricted to the columns the ingestion
path reads or writes (`models.Device`). -/
structure Device where
  device_id : String
  api_key : String
  is_active : Bool
  last_seen : Option Int
  deriving Repr, DecidableEq

/-- A row of the `employees` table, restricted to the columns the event
fan-out reads (`models.Employee`). -/
structure Employee where
  employee_id : String
  name : String
  deriving Repr, DecidableEq

/-- One element of the ingestion request body (`schemas.EventCreate`). -/
structure EventCreate where
  type : String
  timestamp : Int
  track_id : Int
  employee_id : Option String := none
  license_plate : Option String := none
  duration : Int := 0
  device_id : String
  deriving Repr, DecidableEq

/-- The ingestion request body (`schemas.BatchEventRequest`). -/
structure BatchEventRequest where
  events : List EventCreate
  device_id : String
  deriving Repr, DecidableEq

/-- The ingestion response body (`schemas.BatchEventResponse`). -/
structure BatchEventResponse where
  success : Bool
  processed : Nat
  message : Option String := none
  deriving Repr, DecidableEq

/-- A persisted row of the `events` table, restricted to the columns the
ingestion path writes (`models.Event`). `id` is the server-assigned
autoincrement primary key. -/
structure EventRec where
  id : Nat
  event_type : String
  timestamp : Int
  track_id : Int
  device_id : String
  employee_id : Option String
  license_plate : Option String
  duration : Int
  deriving Repr, DecidableEq

/-! ## Python truthiness helpers -/

/-- Python truthiness of an optional string: `None` and `""` are falsy. -/
def pyTruthyStr : Option String → Bool
  | none => false
  | some s => !(s == "")

/-- Python truthiness of an optional int: `None` and `0` are falsy. -/
def pyTruthyInt : Option Int → Bool
  | none => false
  | some i => !(i == 0)

/-! ## Key provisioner (`backend/app/push.py`, `generate_vapid_keys` etc.)

The two key files at `/tmp/vapid_private.pem` and `/tmp/vapid_public.txt` are
modelled as two `Option String` file contents.  EC key-pair generation is an
external effect: it is modelled by an oracle `keyGen` consuming a fresh-value
counter, so that two distinct generation events may yield distinct pairs. -/

/-- Contents of the two VAPID key files (`none` = file absent) plus the
freshness counter feeding the key-generation oracle. -/
structure VapidState where
  privFile : Option String
  pubFile : Option String
  fresh : Nat
  deriving Repr, DecidableEq

/-- `push.generate_vapid_keys`: if both key files exist, return without doing
anything; otherwise generate a key pair and write both files. -/
def generate_vapid_keys (keyGen : Nat → String × String) (s : VapidState) : VapidState :=
  if s.privFile.isSome && s.pubFile.isSome then s
  else
    let pair := keyGen s.fresh
    { privFile := some pair.1, pubFile := some pair.2, fresh := s.fresh + 1 }

/-- `push.get_vapid_public_key`: ensure the keys exist, then read the public
key file. -/
def get_vapid_public_key (keyGen : Nat → String × String) (s : VapidState) :
    String × VapidState :=
  let s' := generate_vapid_keys keyGen s
  ((s'.pubFile.getD "").trim, s')

/-- `push.get_vapid_private_key`: ensure the keys exist, then read the private
key file. -/
def get_vapid_private_key (keyGen : Nat → String × String) (s : VapidState) :
    String × VapidState :=
  let s' := generate_vapid_keys keyGen s
  ((s'.privFile.getD "").trim, s')

/-! ## Push subscription store (`backend/app/push.py`, `subscribe`/`unsubscribe`) -/

/-- The browser-supplied subscription payload (`subscription_info`).  The code
only ever reads its `endpoint` key (with `""` as default when absent); the rest
is opaque and kept as one blob. `endpoint = ""` models a payload whose
`endpoint` key is missing or empty. -/
structure SubscriptionInfo where
  endpoint : String
  rest : String
  deriving Repr, DecidableEq

/-- The value stored per endpoint in `push_subscriptions`:
`{"subscription": subscription_info, "user_id": user_id}`. -/
structure SubEntry where
  subscription : SubscriptionInfo
  user_id : String
  deriving Repr, DecidableEq

/-- Python dict assignment `d[k] = v`: overwrite in place when the key exists,
append otherwise. -/
def dictInsert (l : List (String × SubEntry)) (k : String) (v : SubEntry) :
    List (String × SubEntry) :=
  if l.any (fun p => p.1 == k) then
    l.map (fun p => if p.1 == k then (k, v) else p)
  else l ++ [(k, v)]

/-- First-match lookup in an association list (Python dict read). -/
def lookupDict (l : List (String × SubEntry)) (k : String) : Option SubEntry :=
  match l.find? (fun p => p.1 == k) with
  | some p => some p.2
  | none => none

/-- `push.subscribe`: read the payload's endpoint (defaulting to `""`), store
the payload under it unconditionally, return `true`. -/
def subscribe (subs : List (String × SubEntry)) (subscription_info : SubscriptionInfo)
    (user_id : String) : List (String × SubEntry) × Bool :=
  let endpoint := subscription_info.endpoint
  (dictInsert subs endpoint { subscription := subscription_info, user_id := user_id }, true)

/-- `push.unsubscribe`: delete the endpoint's entry if present, reporting
whether it was present. -/
def unsubscribe (subs : List (String × SubEntry)) (endpoint : String) :
    List (String × SubEntry) × Bool :=
  if subs.any (fun p => p.1 == endpoint) then
    (subs.filter (fun p => !(p.1 == endpoint)), true)
  else (subs, false)

/-! ## Push dispatcher (`backend/app/push.py`, `send_push_notification`) -/

/-- Outcome of one `webpush` delivery attempt, as the `try/except` in
`send_push_notification` observes it: success, a `WebPushException` carrying
an optional response status code, or any other exception. -/
inductive PushOutcome where
  | success
  | webPushError (status : Option Nat)
  | otherError
  deriving Repr, DecidableEq

/-- The `except WebPushException` branch's removal condition:
`e.response and e.response.status_code in (404, 410)`. -/
def isGone : PushOutcome → Bool
  | .webPushError (some c) => c == 404 || c == 410
  | _ => false

/-- The JSON-serializable notification payload `send_push_notification`
builds once and sends to every subscriber. -/
structure PushPayload where
  title : String
  body : String
  url : String
  tag : String
  eventId : Option Int
  deriving Repr, DecidableEq

/-- The push module's process state: the `push_subscriptions` dict and the
VAPID key files. -/
structure PushState where
  push_subscriptions : List (String × SubEntry)
  vapid : VapidState
  deriving Repr, DecidableEq

/-- The `for endpoint, sub_data in push_subscriptions.items()` sweep: each
iteration loads the private key (generating the pair if absent) and attempts
one delivery; a `WebPushException` with status 404/410 marks the endpoint for
removal, every other failure is logged and skipped.  Returns the VAPID state
after the sweep, the attempted deliveries in order, and `failed_endpoints`. -/
def pushSweep (keyGen : Nat → String × String) (outcome : String → PushOutcome)
    (payload : PushPayload) :
    List (String × SubEntry) → VapidState →
      VapidState × List (String × PushPayload) × List String
  | [], v => (v, [], [])
  | (endpoint, _) :: rest, v =>
      let v1 := (get_vapid_private_key keyGen v).2
      let r := pushSweep keyGen outcome payload rest v1
      if isGone (outcome endpoint) then
        (r.1, (endpoint, payload) :: r.2.1, endpoint :: r.2.2)
      else
        (r.1, (endpoint, payload) :: r.2.1, r.2.2)

/-- `push.send_push_notification`: no-op on an empty subscriber set; otherwise
build the payload once, sweep every subscriber, then unsubscribe every endpoint
collected in `failed_endpoints`.  Returns the new push state and the attempted
deliveries. -/
def send_push_notification (keyGen : Nat → String × String)
    (outcome : String → PushOutcome) (title body url tag : String)
    (event_id : Option Int) (st : PushState) :
    PushState × List (String × PushPayload) :=
  if st.push_subscriptions.isEmpty then (st, [])
  else
    let payload : PushPayload :=
      { title := title, body := body, url := url, tag := tag, eventId := event_id }
    let r := pushSweep keyGen outcome payload st.push_subscriptions st.vapid
    let subs' := r.2.2.foldl (fun s endpoint => (unsubscribe s endpoint).1)
      st.push_subscriptions
    ({ push_subscriptions := subs', vapid := r.1 }, r.2.1)

/-- The fixed alert lookup table in `push.send_alert_notification`:
event type ↦ (title, default body). -/
def alert_types : List (String × String × String) :=
  [("UNKNOWN_FACE_DETECTED",
      ("Unknown Person Detected", "An unrecognized face was detected")),
   ("LOITERING_DETECTED", ("Loitering Alert", "Unusual activity detected")),
   ("VEHICLE_ENTERED", ("Vehicle Entered", "A vehicle has entered the premises"))]

/-- `push.send_alert_notification`: look the event type up in `alert_types`
(no-op when absent), take `details or default_body` as the body, derive the
url from the truthiness of `event_id` and the tag from the lowercased type,
then dispatch. -/
def send_alert_notification (keyGen : Nat → String × String)
    (outcome : String → PushOutcome) (event_type : String) (details : String)
    (event_id : Option Int) (st : PushState) :
    PushState × List (String × PushPayload) :=
  match alert_types.find? (fun p => p.1 == event_type) with
  | none => (st, [])
  | some p =>
      let body := if details == "" then p.2.2 else details
      let url := if pyTruthyInt event_id then
          "/events?highlight=" ++ toString (event_id.getD 0)
        else "/events"
      send_push_notification keyGen outcome p.2.1 body url
        ("alert-" ++ event_type.toLower) event_id st

/-! ## Broadcast registry (`backend/app/websocket.py`, `ConnectionManager`)

Viewer connections are identified by natural numbers; the outcome of one
`send_text` call on a connection is given by a `sendFails` oracle.  The Python
`set` of connections is modelled as a duplicate-free list (insertion order is
irrelevant to the claims). -/

/-- The registry state: `self.active_connections`. -/
structure ConnectionManager where
  active_connections : List Nat
  deriving Repr, DecidableEq

/-- `ConnectionManager.connect` (after `websocket.accept()`): add the
connection to the set. -/
def ConnectionManager.connect (m : ConnectionManager) (ws : Nat) : ConnectionManager :=
  if ws ∈ m.active_connections then m
  else { active_connections := m.active_connections ++ [ws] }

/-- `ConnectionManager.disconnect`: discard the connection from the set. -/
def ConnectionManager.disconnect (m : ConnectionManager) (ws : Nat) : ConnectionManager :=
  { active_connections := m.active_connections.filter (fun c => !(c == ws)) }

/-- The `for connection in self.active_connections` loop of
`ConnectionManager.broadcast`: attempt `send_text message_json` on each
connection; a raising connection is added to `disconnected`, a succeeding one
has received the message.  Returns the successful deliveries in order and the
`disconnected` set. -/
def sweepSend (sendFails : Nat → Bool) (message_json : String) :
    List Nat → List (Nat × String) × List Nat
  | [] => ([], [])
  | c :: rest =>
      let r := sweepSend sendFails message_json rest
      if sendFails c then (r.1, c :: r.2)
      else ((c, message_json) :: r.1, r.2)

/-- `ConnectionManager.broadcast`: no-op on an empty set; otherwise serialize
the message once, sweep every connection, and remove the collected
`disconnected` set afterwards.  The message is kept generic with an explicit
`serialize` function standing for `json.dumps`.  Returns the new registry
state and the successful deliveries. -/
def ConnectionManager.broadcast {M : Type} (serialize : M → String)
    (sendFails : Nat → Bool) (m : ConnectionManager) (message : M) :
    ConnectionManager × List (Nat × String) :=
  if m.active_connections.isEmpty then (m, [])
  else
    let message_json := serialize message
    let r := sweepSend sendFails message_json m.active_connections
    ({ active_connections :=
        m.active_connections.filter (fun c => !(r.2.contains c)) }, r.1)

/-! ## Ingestion pipeline (`backend/app/routers/events.py`) -/

/-- The SQLAlchemy session as the ingestion path uses it: the committed
`events` table, rows flushed but not yet committed, and the autoincrement
counter for server-assigned event ids. -/
structure DbSession where
  committed : List EventRec
  pending : List EventRec
  nextId : Nat
  deriving Repr, DecidableEq

/-- `db.commit()`: make the pending rows durable. -/
def DbSession.commit (s : DbSession) : DbSession :=
  { s with committed := s.committed ++ s.pending, pending := [] }

/-- `db.rollback()`: discard the pending rows. -/
def DbSession.rollback (s : DbSession) : DbSession :=
  { s with pending := [] }

/-- What a query of the `events` table sees: the committed rows. -/
def DbSession.visible (s : DbSession) : List EventRec :=
  s.committed

/-- The `Event(...)` row built for one batch element, with the authenticated
device's identity (not the caller-supplied one) and the flush-assigned id. -/
def mkEventRec (device_id : String) (e : EventCreate) (id : Nat) : EventRec :=
  { id := id, event_type := e.type, timestamp := e.timestamp,
    track_id := e.track_id, device_id := device_id,
    employee_id := e.employee_id, license_plate := e.license_plate,
    duration := e.duration }

/-- The `for event_data in request.events` persistence loop: each iteration
builds the row and `db.add`/`db.flush`es it (assigning the next id).  The
oracle `flushFails i` says whether the i-th flush raises; on a raise the loop
aborts with the session as it stands (the caller rolls it back).  On success,
returns the session and `created_events` in order. -/
def ingestLoop (device_id : String) (flushFails : Nat → Bool) :
    List EventCreate → Nat → DbSession → Except DbSession (DbSession × List EventRec)
  | [], _, s => .ok (s, [])
  | e :: rest, i, s =>
      if flushFails i then .error s
      else
        match ingestLoop device_id flushFails rest (i + 1)
          { s with pending := s.pending ++ [mkEventRec device_id e s.nextId],
                   nextId := s.nextId + 1 } with
        | .error s' => .error s'
        | .ok r => .ok (r.1, mkEventRec device_id e s.nextId :: r.2)

/-- The `employee_name` lookup in the fan-out loop of `create_events`:
only a truthy `employee_id` is looked up, and only a found employee
contributes a name. -/
def lookupEmployeeName (employees : List Employee) (employee_id : Option String) :
    Option String :=
  if pyTruthyStr employee_id then
    match employees.find? (fun emp => emp.employee_id == employee_id.getD "") with
    | some emp => some emp.name
    | none => none
  else none

/-- The per-event view broadcast to WebSocket clients (`event_dict`). -/
structure EventDict where
  id : Nat
  event_type : String
  timestamp : Int
  employee_name : Option String
  license_plate : Option String
  duration : Int
  deriving Repr, DecidableEq

/-- `event_dict` as built in the fan-out loop of `create_events`. -/
def eventDictOf (employees : List Employee) (ev : EventRec) : EventDict :=
  { id := ev.id, event_type := ev.event_type, timestamp := ev.timestamp,
    employee_name := lookupEmployeeName employees ev.employee_id,
    license_plate := ev.license_plate, duration := ev.duration }

/-- A background task scheduled by `create_events` via
`background_tasks.add_task`. -/
inductive Task where
  | broadcast (event : EventDict)
  | pushAlert (event_type : String) (details : String) (event_id : Nat)
  deriving Repr, DecidableEq

/-- The push-trigger allow-list inside `create_events`:
`alert_types = ["UNKNOWN_FACE_DETECTED", "LOITERING_DETECTED"]`. -/
def ingestAlertTypes : List String :=
  ["UNKNOWN_FACE_DETECTED", "LOITERING_DETECTED"]

/-- `details = employee_name or event.license_plate or ""`. -/
def detailsOf (employee_name license_plate : Option String) : String :=
  if pyTruthyStr employee_name then employee_name.getD ""
  else if pyTruthyStr license_plate then license_plate.getD ""
  else ""

/-- The fan-out tasks scheduled for one created event: a broadcast task
unconditionally, plus a push-alert task when the event's type is in
`ingestAlertTypes`. -/
def fanoutTasks (employees : List Employee) (ev : EventRec) : List Task :=
  let event_dict := eventDictOf employees ev
  Task.broadcast event_dict ::
    (if ev.event_type ∈ ingestAlertTypes then
      [Task.pushAlert ev.event_type
        (detailsOf event_dict.employee_name ev.license_plate) ev.id]
    else [])

/-- `routers.events.create_events`: persist the batch under the authenticated
device's identity, commit, then schedule fan-out tasks for every created
event, answering `{success, processed, message}`.  Any raise during the
persistence phase (a failing flush, or a failing commit when `commitFails`)
lands in the `except` branch: `db.rollback()` and a 500.  Errors carry the
status code and the rolled-back session. -/
def create_events (req : BatchEventRequest) (employees : List Employee)
    (device : Device) (flushFails : Nat → Bool) (commitFails : Bool)
    (s : DbSession) :
    Except (Nat × DbSession) (BatchEventResponse × DbSession × List Task) :=
  match ingestLoop device.device_id flushFails req.events 0 s with
  | .error s' => .error (500, s'.rollback)
  | .ok r =>
      if commitFails then .error (500, r.1.rollback)
      else
        let s2 := r.1.commit
        let tasks := r.2.flatMap (fanoutTasks employees)
        let n := r.2.length
        .ok ({ success := true, processed := n,
               message := some ("Successfully processed " ++ toString n ++ " events") },
             s2, tasks)

/-- Update the first row matched by `p` (the row `.first()` returned). -/
def updateFirst (p : Device → Bool) (f : Device → Device) : List Device → List Device
  | [] => []
  | d :: ds => if p d then f d :: ds else d :: updateFirst p f ds

/-- `routers.events.verify_api_key`: find a device whose `api_key` matches and
whose `is_active` flag is set; fail with 401 if none; otherwise stamp its
`last_seen` with the current time, commit, and return the device.  Returns the
updated device and the updated devices table. -/
def verify_api_key (devices : List Device) (x_api_key : String) (now : Int) :
    Except Nat (Device × List Device) :=
  match devices.find? (fun d => d.api_key == x_api_key && d.is_active) with
  | none => .error 401
  | some d =>
      let d' := { d with last_seen := some now }
      .ok (d', updateFirst (fun x => x.api_key == x_api_key && x.is_active)
        (fun x => { x with last_seen := some now }) devices)

/-! ## Statement helpers and concrete example inputs -/

/-- Whether a scheduled task is a push-notification fan-out task. -/
def isPushAlertTask : Task → Bool
  | .pushAlert _ _ _ => true
  | _ => false

/-- Oracle under which no flush raises. -/
def noFail : Nat → Bool := fun _ => false

/-- Oracle under which the first flush raises. -/
def failAtZero : Nat → Bool := fun i => i == 0

/-- An example active device. -/
def devD : Device :=
  { device_id := "D", api_key := "K1", is_active := true, last_seen := none }

/-- The same device, deactivated. -/
def devDInactive : Device :=
  { device_id := "D", api_key := "K1", is_active := false, last_seen := none }

/-- An example `VEHICLE_ENTERED` batch element (with a caller-supplied device
field differing from the authenticated device). -/
def evVE : EventCreate :=
  { type := "VEHICLE_ENTERED", timestamp := 1000, track_id := 1, device_id := "X" }

/-- An example `UNKNOWN_FACE_DETECTED` batch element. -/
def evUF : EventCreate :=
  { type := "UNKNOWN_FACE_DETECTED", timestamp := 1000, track_id := 1, device_id := "X" }

/-- A one-element `VEHICLE_ENTERED` batch. -/
def reqVE : BatchEventRequest := { events := [evVE], device_id := "X" }

/-- A one-element `UNKNOWN_FACE_DETECTED` batch. -/
def reqUF : BatchEventRequest := { events := [evUF], device_id := "X" }

/-- An empty session whose autoincrement counter starts at 1. -/
def sess0 : DbSession := { committed := [], pending := [], nextId := 1 }

/-- An example key-generation oracle. -/
def kgW : Nat → String × String := fun n => ("priv" ++ toString n, "pub" ++ toString n)

/-- An example stored subscription entry for endpoint `e1`. -/
def entryW : SubEntry := { subscription := { endpoint := "e1", rest := "r" }, user_id := "u" }

/-- An example stored subscription entry for endpoint `e2`. -/
def entryW2 : SubEntry := { subscription := { endpoint := "e2", rest := "r2" }, user_id := "u" }

/-- A VAPID state with no key files yet. -/
def vW : VapidState := { privFile := none, pubFile := none, fresh := 0 }

/-- A delivery oracle under which every push succeeds. -/
def outcomeOk : String → PushOutcome := fun _ => .success

/-- A delivery oracle: endpoint `e1` is gone (410), everything else fails
transiently. -/
def outcomeGone1 : String → PushOutcome :=
  fun ep => if ep == "e1" then .webPushError (some 410) else .otherError

/-- The urls of a list of attempted deliveries. -/
def payloadUrls (l : List (String × PushPayload)) : List String :=
  l.map (fun a => a.2.url)

/-- The titles of a list of attempted deliveries. -/
def payloadTitles (l : List (String × PushPayload)) : List String :=
  l.map (fun a => a.2.title)

/-- The example device after a successful authentication at time 7. -/
def devDSeen : Device :=
  { device_id := "D", api_key := "K1", is_active := true, last_seen := some 7 }

/-- The row persisted for `evVE` by `create_events` on `sess0`. -/
def recVE : EventRec :=
  { id := 1, event_type := "VEHICLE_ENTERED", timestamp := 1000, track_id := 1,
    device_id := "D", employee_id := none, license_plate := none, duration := 0 }

/-- The broadcast view of `recVE`. -/
def dictVE : EventDict :=
  { id := 1, event_type := "VEHICLE_ENTERED", timestamp := 1000,
    employee_name := none, license_plate := none, duration := 0 }

/-- The result of ingesting `reqVE` on `sess0` as `devD`. -/
def outVE : BatchEventResponse × DbSession × List Task :=
  ({ success := true, processed := 1,
     message := some "Successfully processed 1 events" },
   { committed := [recVE], pending := [], nextId := 2 },
   [Task.broadcast dictVE])

/-- The row persisted for `evUF` by `create_events` on `sess0`. -/
def recUF : EventRec :=
  { id := 1, event_type := "UNKNOWN_FACE_DETECTED", timestamp := 1000, track_id := 1,
    device_id := "D", employee_id := none, license_plate := none, duration := 0 }

/-- The broadcast view of `recUF`. -/
def dictUF : EventDict :=
  { id := 1, event_type := "UNKNOWN_FACE_DETECTED", timestamp := 1000,
    employee_name := none, license_plate := none, duration := 0 }

/-- The result of ingesting `reqUF` on `sess0` as `devD`. -/
def outUF : BatchEventResponse × DbSession × List Task :=
  ({ success := true, processed := 1,
     message := some "Successfully processed 1 events" },
   { committed := [recUF], pending := [], nextId := 2 },
   [Task.broadcast dictUF, Task.pushAlert "UNKNOWN_FACE_DETECTED" "" 1])

/-! ## Lemmas about the push dispatcher -/

/-- The sweep attempts one delivery to every subscriber, in order, with the
one payload. -/
theorem pushSweep_attempts (kg : Nat → String × String) (outcome : String → PushOutcome)
    (payload : PushPayload) (l : List (String × SubEntry)) (v : VapidState) :
    (pushSweep kg outcome payload l v).2.1 = l.map (fun p => (p.1, payload)) := by
  induction l generalizing v with
  | nil => rfl
  | cons hd tl ih =>
      obtain ⟨ep, sd⟩ := hd
      by_cases h : isGone (outcome ep) <;> simp [pushSweep, h, ih]

/-- The endpoints collected for removal are exactly the subscribers whose
delivery outcome is a 404/410 `WebPushException`. -/
theorem pushSweep_failed (kg : Nat → String × String) (outcome : String → PushOutcome)
    (payload : PushPayload) (l : List (String × SubEntry)) (v : VapidState) :
    (pushSweep kg outcome payload l v).2.2 =
      (l.map Prod.fst).filter (fun ep => isGone (outcome ep)) := by
  induction l generalizing v with
  | nil => rfl
  | cons hd tl ih =>
      obtain ⟨ep, sd⟩ := hd
      by_cases h : isGone (outcome ep) <;> simp [pushSweep, h, ih]

/-- `unsubscribe` never adds entries. -/
theorem unsubscribe_subset {s : List (String × SubEntry)} {e : String}
    {p : String × SubEntry} (h : p ∈ (unsubscribe s e).1) : p ∈ s := by
  unfold unsubscribe at h
  split at h
  · exact List.mem_of_mem_filter h
  · exact h

/-- No entry keyed by `e` survives `unsubscribe s e`. -/
theorem unsubscribe_mem_ne {s : List (String × SubEntry)} {e : String}
    {p : String × SubEntry} (h : p ∈ (unsubscribe s e).1) : p.1 ≠ e := by
  unfold unsubscribe at h
  split at h
  case isTrue ha =>
    have hf := List.of_mem_filter h
    simpa using hf
  case isFalse ha =>
    intro he
    exact ha (List.any_eq_true.2 ⟨p, h, by simp [he]⟩)

/-- `unsubscribe` keeps entries with a different key. -/
theorem unsubscribe_mem_of_ne {s : List (String × SubEntry)} {e : String}
    {p : String × SubEntry} (hp : p ∈ s) (hne : p.1 ≠ e) :
    p ∈ (unsubscribe s e).1 := by
  unfold unsubscribe
  split
  · exact List.mem_filter.2 ⟨hp, by simp [hne]⟩
  · exact hp

/-- The cleanup fold never adds entries. -/
theorem foldl_unsubscribe_subset (failed : List String) :
    ∀ s p, p ∈ failed.foldl (fun s ep => (unsubscribe s ep).1) s → p ∈ s := by
  induction failed with
  | nil => intro s p h; exact h
  | cons e rest ih =>
      intro s p h
      exact unsubscribe_subset (ih _ _ h)

/-- The cleanup fold keeps every entry whose key was not collected. -/
theorem foldl_unsubscribe_mem (failed : List String) :
    ∀ s p, p ∈ s → p.1 ∉ failed →
      p ∈ failed.foldl (fun s ep => (unsubscribe s ep).1) s := by
  induction failed with
  | nil => intro s p h _; exact h
  | cons e rest ih =>
      intro s p hp hn
      simp only [List.mem_cons, not_or] at hn
      exact ih _ _ (unsubscribe_mem_of_ne hp hn.1) hn.2

/-- After the cleanup fold, no surviving entry is keyed by a collected
endpoint. -/
theorem foldl_unsubscribe_not_mem (failed : List String) :
    ∀ s k, k ∈ failed →
      ∀ p ∈ failed.foldl (fun s ep => (unsubscribe s ep).1) s, p.1 ≠ k := by
  induction failed with
  | nil => intro s k hk; cases hk
  | cons e rest ih =>
      intro s k hk p hp
      rcases List.mem_cons.1 hk with rfl | hk'
      · exact unsubscribe_mem_ne (foldl_unsubscribe_subset rest _ p hp)
      · exact ih _ k hk' p hp

/-- `send_push_notification` attempts one delivery per subscriber, in order,
all with the one payload it built. -/
theorem send_push_attempts (kg : Nat → String × String) (outcome : String → PushOutcome)
    (title body url tag : String) (eid : Option Int)
    (subs : List (String × SubEntry)) (v : VapidState) :
    (send_push_notification kg outcome title body url tag eid
        { push_subscriptions := subs, vapid := v }).2 =
      subs.map (fun p =>
        (p.1, { title := title, body := body, url := url, tag := tag,
                eventId := eid : PushPayload })) := by
  cases subs with
  | nil => rfl
  | cons hd tl => simp [send_push_notification, pushSweep_attempts]

/-! ## Claim theorems: push module -/

/-- Claim C4: during a push dispatch sweep, a subscriber whose delivery
reports 404/410 is removed from the subscriber set before the next call, a
subscriber failing with any other error remains present, and every subscriber
is attempted (no failure aborts the sweep; removals happen only after the
sweep). -/
theorem push_dispatch_self_heals (kg : Nat → String × String)
    (outcome : String → PushOutcome) (title body url tag : String)
    (eid : Option Int) (subs : List (String × SubEntry)) (v : VapidState) :
    (∀ ep ∈ subs.map Prod.fst, isGone (outcome ep) = true →
      ep ∉ ((send_push_notification kg outcome title body url tag eid
        { push_subscriptions := subs, vapid := v }).1.push_subscriptions.map Prod.fst)) ∧
    (∀ p ∈ subs, isGone (outcome p.1) = false →
      p ∈ (send_push_notification kg outcome title body url tag eid
        { push_subscriptions := subs, vapid := v }).1.push_subscriptions) ∧
    ((send_push_notification kg outcome title body url tag eid
        { push_subscriptions := subs, vapid := v }).2.map Prod.fst
      = subs.map Prod.fst) := by
  refine ⟨?_, ?_, ?_⟩
  · intro ep hep hgone hmem
    cases subs with
    | nil => simp at hep
    | cons hd tl =>
        simp only [send_push_notification, List.isEmpty_cons, Bool.false_eq_true,
          if_false, pushSweep_failed] at hmem
        rcases List.mem_map.1 hmem with ⟨p, hp, hpk⟩
        have hfail : ep ∈ ((hd :: tl).map Prod.fst).filter
            (fun e => isGone (outcome e)) :=
          List.mem_filter.2 ⟨hep, by simp [hgone]⟩
        exact foldl_unsubscribe_not_mem _ _ ep hfail p hp hpk
  · intro p hp hok
    cases subs with
    | nil => cases hp
    | cons hd tl =>
        simp only [send_push_notification, List.isEmpty_cons, Bool.false_eq_true,
          if_false, pushSweep_failed]
        refine foldl_unsubscribe_mem _ _ _ hp ?_
        intro hbad
        have := (List.mem_filter.1 hbad).2
        simp [hok] at this
  · rw [send_push_attempts]
    simp [List.map_map]

/-- Witness for C4 at a two-subscriber set where `e1` is gone (410) and `e2`
fails transiently. -/
theorem push_dispatch_self_heals_witness :
    ("e1" ∉ ((send_push_notification kgW outcomeGone1 "t" "b" "/u" "g" none
      { push_subscriptions := [("e1", entryW), ("e2", entryW2)],
        vapid := vW }).1.push_subscriptions.map Prod.fst)) ∧
    (("e2", entryW2) ∈ (send_push_notification kgW outcomeGone1 "t" "b" "/u" "g" none
      { push_subscriptions := [("e1", entryW), ("e2", entryW2)],
        vapid := vW }).1.push_subscriptions) ∧
    ((send_push_notification kgW outcomeGone1 "t" "b" "/u" "g" none
      { push_subscriptions := [("e1", entryW), ("e2", entryW2)],
        vapid := vW }).2.map Prod.fst = ["e1", "e2"]) := by
  have h := push_dispatch_self_heals kgW outcomeGone1 "t" "b" "/u" "g" none
    [("e1", entryW), ("e2", entryW2)] vW
  exact ⟨h.1 "e1" (by decide) (by decide),
    h.2.1 ("e2", entryW2) (by decide) (by decide),
    h.2.2.trans (by decide)⟩

/-- Claim C9: dispatching a push notification with an empty subscriber set is
a no-op: no key file is read or generated, no delivery attempted, the state
unchanged. -/
theorem push_dispatch_empty_is_noop (kg : Nat → String × String)
    (outcome : String → PushOutcome) (title body url tag : String)
    (eid : Option Int) (v : VapidState) :
    send_push_notification kg outcome title body url tag eid
      { push_subscriptions := [], vapid := v } =
    ({ push_subscriptions := [], vapid := v }, []) := rfl

/-- Both key files exist after `generate_vapid_keys`. -/
theorem generate_vapid_keys_isSome (kg : Nat → String × String) (s : VapidState) :
    (generate_vapid_keys kg s).privFile.isSome = true ∧
    (generate_vapid_keys kg s).pubFile.isSome = true := by
  unfold generate_vapid_keys
  by_cases h : s.privFile.isSome && s.pubFile.isSome
  · rw [Bool.and_eq_true] at h
    simp [h.1, h.2]
  · simp [h]

/-- Claim C10: the key pair is never regenerated once present, and two
successive public-key calls return the identical key. -/
theorem vapid_key_idempotent (kg : Nat → String × String) (s : VapidState) :
    (s.privFile.isSome = true → s.pubFile.isSome = true →
      generate_vapid_keys kg s = s) ∧
    ((get_vapid_public_key kg (get_vapid_public_key kg s).2).1 =
      (get_vapid_public_key kg s).1 ∧
     (get_vapid_public_key kg (get_vapid_public_key kg s).2).2 =
      (get_vapid_public_key kg s).2) := by
  have hsome := generate_vapid_keys_isSome kg s
  have hid : ∀ t : VapidState, t.privFile.isSome = true → t.pubFile.isSome = true →
      generate_vapid_keys kg t = t := by
    intro t h1 h2
    unfold generate_vapid_keys
    simp [h1, h2]
  have hstable : generate_vapid_keys kg (generate_vapid_keys kg s) =
      generate_vapid_keys kg s := hid _ hsome.1 hsome.2
  refine ⟨hid s, ?_, ?_⟩
  · simp [get_vapid_public_key, hstable]
  · simp [get_vapid_public_key, hstable]

/-- Witness for C10: with both key files present the provisioner is the
identity, and the public key read twice from a fresh state is stable. -/
theorem vapid_key_idempotent_witness :
    generate_vapid_keys kgW { privFile := some "p", pubFile := some "q", fresh := 3 } =
      { privFile := some "p", pubFile := some "q", fresh := 3 } ∧
    (get_vapid_public_key kgW (get_vapid_public_key kgW vW).2).1 =
      (get_vapid_public_key kgW vW).1 :=
  ⟨(vapid_key_idempotent kgW _).1 rfl rfl, (vapid_key_idempotent kgW vW).2.1⟩

/-- Skipping a non-matching head leaves a dict lookup unchanged. -/
theorem lookupDict_cons_ne {p : String × SubEntry} {t : List (String × SubEntry)}
    {k : String} (hp : (p.1 == k) = false) :
    lookupDict (p :: t) k = lookupDict t k := by
  simp [lookupDict, List.find?_cons, hp]

/-- When some entry carries key `k`, looking `k` up after overwriting every
`k`-keyed entry with `(k, v)` yields `v`. -/
theorem find_overwrite (k : String) (v : SubEntry) :
    ∀ l : List (String × SubEntry), l.any (fun q => q.1 == k) = true →
      (l.map (fun q => if q.1 == k then (k, v) else q)).find?
        (fun q => q.1 == k) = some (k, v) := by
  intro l
  induction l with
  | nil => intro h; cases h
  | cons p t ih =>
      intro hany
      by_cases hp : (p.1 == k) = true
      · rw [List.map_cons, if_pos hp]
        exact List.find?_cons_of_pos _ (by simp)
      · have hp' : (p.1 == k) = false := Bool.eq_false_iff.mpr hp
        have ht : t.any (fun q => q.1 == k) = true := by
          rcases List.any_eq_true.1 hany with ⟨q, hq, hqk⟩
          rcases List.mem_cons.1 hq with rfl | hq'
          · exact absurd hqk hp
          · exact List.any_eq_true.2 ⟨q, hq', hqk⟩
        rw [List.map_cons, if_neg hp]
        simp only [List.find?_cons, hp']
        exact ih ht

/-- `find?` skips a prefix on which it finds nothing. -/
theorem find_append_of_none {α : Type} (p : α → Bool) :
    ∀ l l' : List α, l.find? p = none → (l ++ l').find? p = l'.find? p := by
  intro l
  induction l with
  | nil => intro l' _; rfl
  | cons a t ih =>
      intro l' h
      by_cases ha : p a = true
      · rw [List.find?_cons_of_pos _ ha] at h
        cases h
      · have ha' : p a = false := by simpa using ha
        rw [List.find?_cons_of_neg _ (by simp [ha'])] at h
        rw [List.cons_append, List.find?_cons_of_neg _ (by simp [ha'])]
        exact ih l' h

/-- Dict assignment followed by lookup of the same key yields the assigned
value. -/
theorem lookupDict_dictInsert (l : List (String × SubEntry)) (k : String)
    (v : SubEntry) : lookupDict (dictInsert l k v) k = some v := by
  by_cases h : l.any (fun q => q.1 == k) = true
  · have hins : dictInsert l k v =
        l.map (fun q => if q.1 == k then (k, v) else q) := by
      simp [dictInsert, h]
    rw [hins]
    unfold lookupDict
    rw [find_overwrite k v l h]
  · have hfalse : l.any (fun q => q.1 == k) = false := Bool.eq_false_iff.mpr h
    have hins : dictInsert l k v = l ++ [(k, v)] := by
      simp only [dictInsert, hfalse]
      rfl
    have hnone : l.find? (fun q => q.1 == k) = none := by
      apply List.find?_eq_none.2
      intro q hq hqk
      exact h (List.any_eq_true.2 ⟨q, hq, hqk⟩)
    rw [hins]
    unfold lookupDict
    rw [find_append_of_none _ l [(k, v)] hnone, List.find?_cons_of_pos _ (by simp)]

/-- Claim C6 counterexample: a payload with an empty (or missing) endpoint is
accepted by `subscribe` — it returns `true` and stores the payload under the
empty-string key — so no non-empty-endpoint requirement exists. -/
theorem subscribe_accepts_empty_endpoint :
    (subscribe [] { endpoint := "", rest := "opaque" } "anonymous").2 = true ∧
    (subscribe [] { endpoint := "", rest := "opaque" } "anonymous").1 =
      [("", { subscription := { endpoint := "", rest := "opaque" },
              user_id := "anonymous" })] :=
  ⟨rfl, rfl⟩

/-- Claim C6 (amended): `subscribe` succeeds for every payload and performs no
validation at all — even an empty endpoint is accepted — and the payload is
stored under its endpoint, overwriting any prior entry for that endpoint. -/
theorem subscribe_stores_unconditionally (subs : List (String × SubEntry))
    (info : SubscriptionInfo) (uid : String) :
    (subscribe subs info uid).2 = true ∧
    lookupDict (subscribe subs info uid).1 info.endpoint =
      some { subscription := info, user_id := uid } :=
  ⟨rfl, lookupDict_dictInsert subs info.endpoint _⟩

/-- Claim C8 counterexample: `sendAlert` with the mapped type
`UNKNOWN_FACE_DETECTED` and the present id `0` sends a notification (title
from the table) whose url is the plain `/events`, not the highlight url the
claim requires for a present id (Python's `if event_id` treats 0 as absent). -/
theorem alert_url_ignores_zero_id :
    payloadUrls (send_alert_notification kgW outcomeOk "UNKNOWN_FACE_DETECTED"
        "" (some 0) { push_subscriptions := [("e1", entryW)], vapid := vW }).2 =
      ["/events"] ∧
    payloadTitles (send_alert_notification kgW outcomeOk "UNKNOWN_FACE_DETECTED"
        "" (some 0) { push_subscriptions := [("e1", entryW)], vapid := vW }).2 =
      ["Unknown Person Detected"] ∧
    "/events" ≠ "/events?highlight=" ++ toString (0 : Int) := by
  refine ⟨by decide, by decide, by decide⟩

/-- Claim C8 (amended): for an event type in the lookup table, every delivery
carries the table's title, the tag `alert-` + lowercased type, and a url
highlighting the event when a non-zero id is present (an id of 0 is treated
like an absent one); a type absent from the table is a silent no-op. -/
theorem send_alert_spec (kg : Nat → String × String) (outcome : String → PushOutcome)
    (ty details : String) (eid : Option Int) (subs : List (String × SubEntry))
    (v : VapidState) :
    (∀ tpl, alert_types.find? (fun p => p.1 == ty) = some tpl →
      ((send_alert_notification kg outcome ty details eid
          { push_subscriptions := subs, vapid := v }).2.map Prod.fst
        = subs.map Prod.fst) ∧
      ∀ a ∈ (send_alert_notification kg outcome ty details eid
          { push_subscriptions := subs, vapid := v }).2,
        a.2.title = tpl.2.1 ∧
        a.2.tag = "alert-" ++ ty.toLower ∧
        a.2.eventId = eid ∧
        (∀ i : Int, eid = some i → ¬ i = 0 →
          a.2.url = "/events?highlight=" ++ toString i) ∧
        ((eid = none ∨ eid = some 0) → a.2.url = "/events")) ∧
    (alert_types.find? (fun p => p.1 == ty) = none →
      send_alert_notification kg outcome ty details eid
          { push_subscriptions := subs, vapid := v } =
        ({ push_subscriptions := subs, vapid := v }, [])) := by
  constructor
  · intro tpl htpl
    have hsend : (send_alert_notification kg outcome ty details eid
        { push_subscriptions := subs, vapid := v }).2 =
        subs.map (fun p =>
          (p.1, { title := tpl.2.1,
                  body := if details == "" then tpl.2.2 else details,
                  url := if pyTruthyInt eid then
                      "/events?highlight=" ++ toString (eid.getD 0)
                    else "/events",
                  tag := "alert-" ++ ty.toLower,
                  eventId := eid : PushPayload })) := by
      simp only [send_alert_notification, htpl]
      exact send_push_attempts kg outcome _ _ _ _ eid subs v
    constructor
    · rw [hsend]
      simp [List.map_map]
    · intro a ha
      rw [hsend] at ha
      rcases List.mem_map.1 ha with ⟨p, hp, rfl⟩
      refine ⟨rfl, rfl, rfl, ?_, ?_⟩
      · intro i hi hne
        subst hi
        simp [pyTruthyInt, hne]
      · intro hcase
        rcases hcase with rfl | rfl <;> simp [pyTruthyInt]
  · intro hnone
    simp [send_alert_notification, hnone]

/-- Witness for C8 (amended) at a mapped type with id 7, and at an unmapped
type. -/
theorem send_alert_spec_witness :
    ((send_alert_notification kgW outcomeOk "LOITERING_DETECTED" "" (some 7)
        { push_subscriptions := [("e1", entryW)], vapid := vW }).2.map Prod.fst
      = ["e1"]) ∧
    send_alert_notification kgW outcomeOk "PERSON_ENTERED" "" (some 7)
        { push_subscriptions := [("e1", entryW)], vapid := vW } =
      ({ push_subscriptions := [("e1", entryW)], vapid := vW }, []) := by
  have h := send_alert_spec kgW outcomeOk "LOITERING_DETECTED" "" (some 7)
    [("e1", entryW)] vW
  have h2 := send_alert_spec kgW outcomeOk "PERSON_ENTERED" "" (some 7)
    [("e1", entryW)] vW
  exact ⟨((h.1 ("LOITERING_DETECTED",
      ("Loitering Alert", "Unusual activity detected")) (by decide)).1).trans (by decide),
    h2.2 (by decide)⟩

/-! ## Lemmas about the broadcast registry -/

/-- The broadcast sweep delivers to exactly the non-failing connections (in
order) and collects exactly the failing ones. -/
theorem sweepSend_eq (sendFails : Nat → Bool) (msg : String) (l : List Nat) :
    sweepSend sendFails msg l =
      ((l.filter (fun c => !sendFails c)).map (fun c => (c, msg)),
       l.filter (fun c => sendFails c)) := by
  induction l with
  | nil => rfl
  | cons c rest ih =>
      by_cases h : sendFails c = true <;> simp [sweepSend, h, ih]

/-- A connection absent from a list receives nothing in the mapped
delivery list. -/
theorem filter_map_not_mem (msg : String) (c : Nat) :
    ∀ l : List Nat, c ∉ l →
      ((l.map (fun x => (x, msg))).filter (fun p => p.1 == c)) = [] := by
  intro l
  induction l with
  | nil => intro _; rfl
  | cons a t ih =>
      intro hc
      simp only [List.mem_cons, not_or] at hc
      rw [List.map_cons, List.filter_cons]
      have : ((a, msg).1 == c) = false := by simpa using fun h => hc.1 h.symm
      rw [this]
      simp only [Bool.false_eq_true, if_false]
      exact ih hc.2

/-- A connection in a duplicate-free list receives exactly one copy in the
mapped delivery list. -/
theorem filter_map_singleton (msg : String) (c : Nat) :
    ∀ l : List Nat, l.Nodup → c ∈ l →
      ((l.map (fun x => (x, msg))).filter (fun p => p.1 == c)).length = 1 := by
  intro l
  induction l with
  | nil => intro _ hc; cases hc
  | cons a t ih =>
      intro hnd hc
      have hnt : a ∉ t := (List.nodup_cons.1 hnd).1
      rw [List.map_cons, List.filter_cons]
      by_cases hac : a = c
      · subst hac
        have : ((a, msg).1 == a) = true := by simp
        rw [this]
        simp only [if_true]
        rw [filter_map_not_mem msg a t hnt]
        rfl
      · have : ((a, msg).1 == c) = false := by simpa using hac
        rw [this]
        simp only [Bool.false_eq_true, if_false]
        exact ih (List.nodup_cons.1 hnd).2 (by
          rcases List.mem_cons.1 hc with rfl | h
          · exact absurd rfl hac
          · exact h)

/-! ## Claim theorem: broadcast registry -/

/-- Claim C2: after a broadcast sweep, every connection whose send raised is
absent from the active set, every connection whose send succeeded remains
present and received exactly one copy of the serialized message (every
delivered copy is that message), and one connection's failure does not
prevent delivery to the others. -/
theorem broadcast_sweep_spec {M : Type} (serialize : M → String)
    (sendFails : Nat → Bool) (m : ConnectionManager) (message : M)
    (hnd : m.active_connections.Nodup) :
    (∀ c ∈ m.active_connections, sendFails c = true →
      c ∉ (m.broadcast serialize sendFails message).1.active_connections) ∧
    (∀ c ∈ m.active_connections, sendFails c = false →
      c ∈ (m.broadcast serialize sendFails message).1.active_connections ∧
      ((m.broadcast serialize sendFails message).2.filter
        (fun p => p.1 == c)).length = 1) ∧
    (∀ p ∈ (m.broadcast serialize sendFails message).2,
      p.2 = serialize message) := by
  by_cases he : m.active_connections.isEmpty = true
  · have hnil : m.active_connections = [] := List.isEmpty_iff.1 he
    have hb : m.broadcast serialize sendFails message = (m, []) := by
      simp [ConnectionManager.broadcast, he]
    rw [hb]
    refine ⟨?_, ?_, ?_⟩
    · intro c hc
      rw [hnil] at hc
      cases hc
    · intro c hc
      rw [hnil] at hc
      cases hc
    · intro p hp
      cases hp
  · have he' : m.active_connections.isEmpty = false := Bool.eq_false_iff.mpr he
    have hb : m.broadcast serialize sendFails message =
        ({ active_connections := m.active_connections.filter
            (fun c => !((m.active_connections.filter
              (fun c => sendFails c)).contains c)) },
         (m.active_connections.filter (fun c => !sendFails c)).map
           (fun c => (c, serialize message))) := by
      unfold ConnectionManager.broadcast
      simp only [he', Bool.false_eq_true, if_false, sweepSend_eq]
    rw [hb]
    refine ⟨?_, ?_, ?_⟩
    · intro c hc hf hmem
      have h1 := (List.mem_filter.1 hmem).2
      have h2 : c ∈ m.active_connections.filter (fun c => sendFails c) :=
        List.mem_filter.2 ⟨hc, hf⟩
      simp [List.contains, List.elem_iff, h2] at h1
    · intro c hc hf
      constructor
      · refine List.mem_filter.2 ⟨hc, ?_⟩
        have hnot : c ∉ m.active_connections.filter (fun c => sendFails c) := by
          intro hbad
          have := (List.mem_filter.1 hbad).2
          rw [hf] at this
          cases this
        simp [List.contains, List.elem_iff, hnot]
      · exact filter_map_singleton (serialize message) c _ (hnd.filter _)
          (List.mem_filter.2 ⟨hc, by simp [hf]⟩)
    · intro p hp
      rcases List.mem_map.1 hp with ⟨x, _, rfl⟩
      rfl

/-- Witness for C2 with three registered connections of which connection 2
fails. -/
theorem broadcast_sweep_spec_witness :
    (2 ∉ ((ConnectionManager.mk [1, 2, 3]).broadcast (fun s => s)
      (fun c => c == 2) "msg").1.active_connections) ∧
    (1 ∈ ((ConnectionManager.mk [1, 2, 3]).broadcast (fun s => s)
      (fun c => c == 2) "msg").1.active_connections) ∧
    ((((ConnectionManager.mk [1, 2, 3]).broadcast (fun s => s)
      (fun c => c == 2) "msg").2.filter (fun p => p.1 == 3)).length = 1) := by
  have h := broadcast_sweep_spec (fun s => s) (fun c => c == 2)
    (ConnectionManager.mk [1, 2, 3]) "msg" (by decide)
  exact ⟨h.1 2 (by decide) (by decide),
    (h.2.1 1 (by decide) (by decide)).1,
    (h.2.1 3 (by decide) (by decide)).2⟩

/-! ## Lemmas about the ingestion pipeline -/

/-- A raise during the persistence loop never touches the committed table. -/
theorem ingestLoop_error_committed (device_id : String) (ff : Nat → Bool) :
    ∀ (inputs : List EventCreate) (i : Nat) (s s' : DbSession),
      ingestLoop device_id ff inputs i s = .error s' → s'.committed = s.committed := by
  intro inputs
  induction inputs with
  | nil =>
      intro i s s' h
      simp [ingestLoop] at h
  | cons e rest ih =>
      intro i s s' h
      rw [ingestLoop] at h
      by_cases hf : ff i = true
      · rw [if_pos hf] at h
        cases h
        rfl
      · rw [if_neg hf] at h
        cases hrec : ingestLoop device_id ff rest (i + 1)
            { s with pending := s.pending ++ [mkEventRec device_id e s.nextId],
                     nextId := s.nextId + 1 } with
        | error s'' =>
            rw [hrec] at h
            cases h
            have hcom := ih (i + 1) _ _ hrec
            exact hcom
        | ok r =>
            rw [hrec] at h
            cases h

/-- On success, the persistence loop leaves the committed table untouched,
appends the created rows to the pending list, creates one row per input with
the authenticated identity, and assigns consecutive ids from the
autoincrement counter. -/
theorem ingestLoop_ok_spec (device_id : String) (ff : Nat → Bool) :
    ∀ (inputs : List EventCreate) (i : Nat) (s s' : DbSession)
      (created : List EventRec),
      ingestLoop device_id ff inputs i s = .ok (s', created) →
      s'.committed = s.committed ∧
      s'.pending = s.pending ++ created ∧
      created.length = inputs.length ∧
      created.map EventRec.id = List.range' s.nextId inputs.length ∧
      (∀ ev ∈ created, ev.device_id = device_id) := by
  intro inputs
  induction inputs with
  | nil =>
      intro i s s' created h
      rw [ingestLoop] at h
      cases h
      refine ⟨rfl, by simp, rfl, rfl, ?_⟩
      intro ev hev
      cases hev
  | cons e rest ih =>
      intro i s s' created h
      rw [ingestLoop] at h
      by_cases hf : ff i = true
      · rw [if_pos hf] at h
        cases h
      · rw [if_neg hf] at h
        cases hrec : ingestLoop device_id ff rest (i + 1)
            { s with pending := s.pending ++ [mkEventRec device_id e s.nextId],
                     nextId := s.nextId + 1 } with
        | error s'' =>
            rw [hrec] at h
            cases h
        | ok r =>
            obtain ⟨s1, created1⟩ := r
            rw [hrec] at h
            cases h
            obtain ⟨h1, h2, h3, h4, h5⟩ := ih (i + 1) _ s1 created1 hrec
            refine ⟨h1, ?_, ?_, ?_, ?_⟩
            · rw [h2]
              simp
            · simp [h3]
            · rw [List.map_cons, h4]
              rfl
            · intro ev hev
              rcases List.mem_cons.1 hev with rfl | hev'
              · rfl
              · exact h5 ev hev'

/-- A flush failure somewhere in the batch makes the persistence loop
raise. -/
theorem ingestLoop_error_of_fail (device_id : String) (ff : Nat → Bool) :
    ∀ (inputs : List EventCreate) (i : Nat) (s : DbSession),
      (∃ k, k < inputs.length ∧ ff (i + k) = true) →
      ∃ s', ingestLoop device_id ff inputs i s = .error s' := by
  intro inputs
  induction inputs with
  | nil =>
      intro i s hex
      obtain ⟨k, hk, _⟩ := hex
      exact absurd hk (Nat.not_lt_zero k)
  | cons e rest ih =>
      intro i s hex
      obtain ⟨k, hk, hfk⟩ := hex
      by_cases hf : ff i = true
      · exact ⟨s, by rw [ingestLoop, if_pos hf]⟩
      · have hk0 : k ≠ 0 := by
          rintro rfl
          exact hf (by simpa using hfk)
        obtain ⟨k', rfl⟩ := Nat.exists_eq_succ_of_ne_zero hk0
        have hshift : ff ((i + 1) + k') = true := by
          have harith : i + (k' + 1) = (i + 1) + k' := by omega
          rwa [harith] at hfk
        obtain ⟨s', hs'⟩ := ih (i + 1)
          { s with pending := s.pending ++ [mkEventRec device_id e s.nextId],
                   nextId := s.nextId + 1 }
          ⟨k', by simpa using hk, hshift⟩
        exact ⟨s', by rw [ingestLoop, if_neg hf, hs']⟩

/-- When no flush in the batch raises, the persistence loop succeeds. -/
theorem ingestLoop_ok_of_noFail (device_id : String) (ff : Nat → Bool) :
    ∀ (inputs : List EventCreate) (i : Nat) (s : DbSession),
      (∀ k, k < inputs.length → ff (i + k) = false) →
      ∃ s' created, ingestLoop device_id ff inputs i s = .ok (s', created) := by
  intro inputs
  induction inputs with
  | nil => intro i s _; exact ⟨s, [], rfl⟩
  | cons e rest ih =>
      intro i s hff
      have hf : ff i = false := by simpa using hff 0 (Nat.succ_pos _)
      obtain ⟨s', created, hrec⟩ := ih (i + 1)
        { s with pending := s.pending ++ [mkEventRec device_id e s.nextId],
                 nextId := s.nextId + 1 }
        (fun k hk => by
          have hh := hff (k + 1) (Nat.succ_lt_succ hk)
          have harith : i + (k + 1) = (i + 1) + k := by omega
          rwa [harith] at hh)
      exact ⟨s', mkEventRec device_id e s.nextId :: created, by
        rw [ingestLoop, if_neg (by simp [hf]), hrec]⟩

/-! ## Claim theorems: ingestion pipeline -/

/-- Claim C3: batch ingestion is atomic — if persisting any event of the
batch fails (a flush raises, or the commit raises), the call fails with a
500 and the visible event store afterwards equals the store before. -/
theorem create_events_atomic_on_failure (req : BatchEventRequest)
    (employees : List Employee) (device : Device) (ff : Nat → Bool) (cf : Bool)
    (s : DbSession)
    (hfail : (∃ k, k < req.events.length ∧ ff k = true) ∨ cf = true) :
    ∃ err : Nat × DbSession,
      create_events req employees device ff cf s = .error err ∧
      err.1 = 500 ∧ err.2.visible = s.visible := by
  cases hloop : ingestLoop device.device_id ff req.events 0 s with
  | error s' =>
      refine ⟨(500, s'.rollback), ?_, rfl, ?_⟩
      · simp [create_events, hloop]
      · have hc := ingestLoop_error_committed device.device_id ff req.events 0 s s' hloop
        simp [DbSession.visible, DbSession.rollback, hc]
  | ok r =>
      rcases hfail with hex | hcf
      · exfalso
        obtain ⟨k, hk, hfk⟩ := hex
        obtain ⟨s', hs'⟩ := ingestLoop_error_of_fail device.device_id ff req.events 0 s
          ⟨k, hk, by simpa using hfk⟩
        rw [hloop] at hs'
        cases hs'
      · obtain ⟨s1, created⟩ := r
        refine ⟨(500, s1.rollback), ?_, rfl, ?_⟩
        · simp [create_events, hloop, hcf]
        · have hc := (ingestLoop_ok_spec device.device_id ff req.events 0 s s1
            created hloop).1
          simp [DbSession.visible, DbSession.rollback, hc]

/-- Witness for C3: a one-event batch whose single flush raises yields a 500
and an unchanged store. -/
theorem create_events_atomic_on_failure_witness :
    ((∃ k, k < reqVE.events.length ∧ failAtZero k = true) ∨ false = true) ∧
    (∃ err : Nat × DbSession,
      create_events reqVE [] devD failAtZero false sess0 = .error err ∧
      err.1 = 500 ∧ err.2.visible = sess0.visible) :=
  ⟨Or.inl ⟨0, by decide, by decide⟩,
   create_events_atomic_on_failure reqVE [] devD failAtZero false sess0
     (Or.inl ⟨0, by decide, by decide⟩)⟩

/-- Claim C5: for a batch of N events from the authenticated device, when
persistence succeeds, ingestion persists exactly N events, each attributed to
the authenticated device (overriding the caller-supplied device field),
answers `processed = N`, and the N assigned ids are distinct and
increasing. -/
theorem create_events_success (req : BatchEventRequest) (employees : List Employee)
    (device : Device) (ff : Nat → Bool) (s : DbSession)
    (hff : ∀ k, k < req.events.length → ff k = false) (hs : s.pending = []) :
    ∃ (out : BatchEventResponse × DbSession × List Task) (created : List EventRec),
      create_events req employees device ff false s = .ok out ∧
      out.1.success = true ∧
      out.1.processed = req.events.length ∧
      out.2.1.visible = s.visible ++ created ∧
      created.length = req.events.length ∧
      (∀ ev ∈ created, ev.device_id = device.device_id) ∧
      (created.map EventRec.id).Pairwise (· < ·) ∧
      (created.map EventRec.id).Nodup := by
  obtain ⟨s1, created, hloop⟩ := ingestLoop_ok_of_noFail device.device_id ff
    req.events 0 s (fun k hk => by simpa using hff k hk)
  obtain ⟨h1, h2, h3, h4, h5⟩ := ingestLoop_ok_spec device.device_id ff
    req.events 0 s s1 created hloop
  have hcreate : create_events req employees device ff false s =
      .ok ({ success := true, processed := created.length,
             message := some ("Successfully processed " ++
               toString created.length ++ " events") },
           s1.commit, created.flatMap (fanoutTasks employees)) := by
    simp [create_events, hloop]
  refine ⟨_, created, hcreate, rfl, h3, ?_, h3, h5, ?_, ?_⟩
  · simp [DbSession.commit, DbSession.visible, h1, h2, hs]
  · rw [h4]
    exact List.pairwise_lt_range' s.nextId req.events.length 1 (by decide)
  · rw [h4]
    exact (List.pairwise_lt_range' s.nextId req.events.length 1 (by decide)).imp
      fun h => Nat.ne_of_lt h

/-- Witness for C5 at a concrete one-event batch. -/
theorem create_events_success_witness :
    ∃ (out : BatchEventResponse × DbSession × List Task) (created : List EventRec),
      create_events reqUF [] devD noFail false sess0 = .ok out ∧
      out.1.success = true ∧
      out.1.processed = reqUF.events.length ∧
      out.2.1.visible = sess0.visible ++ created ∧
      created.length = reqUF.events.length ∧
      (∀ ev ∈ created, ev.device_id = devD.device_id) ∧
      (created.map EventRec.id).Pairwise (· < ·) ∧
      (created.map EventRec.id).Nodup :=
  create_events_success reqUF [] devD noFail sess0 (fun _ _ => rfl) rfl

/-- Claim C1 counterexample: a successfully ingested `VEHICLE_ENTERED` event
— a member of the claim's alert-worthy set — gets a broadcast task but no
push-notification task, because the trigger list inside `create_events` is
only `["UNKNOWN_FACE_DETECTED", "LOITERING_DETECTED"]`. -/
theorem vehicle_entered_gets_no_push_task :
    "VEHICLE_ENTERED" ∈
      ["UNKNOWN_FACE_DETECTED", "LOITERING_DETECTED", "VEHICLE_ENTERED"] ∧
    create_events reqVE [] devD noFail false sess0 = .ok outVE ∧
    outVE.2.2.countP isPushAlertTask = 0 ∧
    outVE.2.2 ≠ [] := by
  refine ⟨by decide, by rfl, by decide, by decide⟩

/-- Claim C1 (amended): for every event created by a successful ingestion
call, a broadcast fan-out task is scheduled unconditionally, and a
push-notification fan-out task is scheduled if and only if the event's type
belongs to `["UNKNOWN_FACE_DETECTED", "LOITERING_DETECTED"]` (the
`alert_types` list inside `create_events`; `VEHICLE_ENTERED` is not in it). -/
theorem create_events_fanout (req : BatchEventRequest) (employees : List Employee)
    (device : Device) (ff : Nat → Bool) (cf : Bool) (s : DbSession)
    (out : BatchEventResponse × DbSession × List Task)
    (h : create_events req employees device ff cf s = .ok out)
    (hs : s.pending = []) :
    ∃ created : List EventRec,
      out.2.1.visible = s.visible ++ created ∧
      ∀ ev ∈ created,
        Task.broadcast (eventDictOf employees ev) ∈ out.2.2 ∧
        ((∃ d, Task.pushAlert ev.event_type d ev.id ∈ out.2.2) ↔
          ev.event_type ∈ ingestAlertTypes) := by
  cases hloop : ingestLoop device.device_id ff req.events 0 s with
  | error s' => simp [create_events, hloop] at h
  | ok r =>
      obtain ⟨s1, created⟩ := r
      cases cf with
      | true => simp [create_events, hloop] at h
      | false =>
          simp only [create_events, hloop, Bool.false_eq_true, if_false] at h
          cases h
          obtain ⟨h1, h2, h3, h4, h5⟩ := ingestLoop_ok_spec device.device_id ff
            req.events 0 s s1 created hloop
          refine ⟨created, ?_, ?_⟩
          · simp [DbSession.commit, DbSession.visible, h1, h2, hs]
          · intro ev hev
            constructor
            · exact List.mem_flatMap.2 ⟨ev, hev, by simp [fanoutTasks]⟩
            · constructor
              · rintro ⟨d, hd⟩
                rcases List.mem_flatMap.1 hd with ⟨ev', hev', hin⟩
                simp only [fanoutTasks] at hin
                rcases List.mem_cons.1 hin with heq | hin'
                · cases heq
                · by_cases htype : ev'.event_type ∈ ingestAlertTypes
                  · rw [if_pos htype] at hin'
                    rcases List.mem_singleton.1 hin' with heq2
                    have : ev.event_type = ev'.event_type := by
                      injection heq2
                    rw [this]
                    exact htype
                  · rw [if_neg htype] at hin'
                    cases hin'
              · intro htype
                refine ⟨detailsOf (eventDictOf employees ev).employee_name
                  ev.license_plate, ?_⟩
                exact List.mem_flatMap.2 ⟨ev, hev, by
                  simp [fanoutTasks, htype]⟩

/-- Witness for C1 (amended) at a concrete one-event
`UNKNOWN_FACE_DETECTED` batch. -/
theorem create_events_fanout_witness :
    ∃ created : List EventRec,
      outUF.2.1.visible = sess0.visible ++ created ∧
      ∀ ev ∈ created,
        Task.broadcast (eventDictOf [] ev) ∈ outUF.2.2 ∧
        ((∃ d, Task.pushAlert ev.event_type d ev.id ∈ outUF.2.2) ↔
          ev.event_type ∈ ingestAlertTypes) :=
  create_events_fanout reqUF [] devD noFail false sess0 outUF rfl rfl

/-! ## Lemma and claim theorem: device authenticator -/

/-- The row found by `.first()` is updated in place by `updateFirst`. -/
theorem updateFirst_mem (p : Device → Bool) (f : Device → Device) :
    ∀ (l : List Device) (d0 : Device), l.find? p = some d0 →
      f d0 ∈ updateFirst p f l := by
  intro l
  induction l with
  | nil => intro d0 h; cases h
  | cons a t ih =>
      intro d0 h
      by_cases hp : p a = true
      · rw [List.find?_cons_of_pos _ hp] at h
        cases h
        rw [updateFirst, if_pos hp]
        exact List.mem_cons_self _ _
      · rw [List.find?_cons_of_neg _ hp] at h
        rw [updateFirst, if_neg hp]
        exact List.mem_cons_of_mem _ (ih d0 h)

/-- Claim C7: authentication fails with 401 whenever no device matches the
credential with its active flag set (in particular for any deactivated
device's credential), and on success the returned device matches the
credential, is active, carries the refreshed last-seen timestamp, and is in
the updated device table. -/
theorem verify_api_key_auth (devices : List Device) (key : String) (now : Int) :
    ((∀ d ∈ devices, d.api_key = key → d.is_active = false) →
      verify_api_key devices key now = .error 401) ∧
    (∀ d rest, verify_api_key devices key now = .ok (d, rest) →
      d.api_key = key ∧ d.is_active = true ∧ d.last_seen = some now ∧
      d ∈ rest) := by
  constructor
  · intro hno
    have hnone : devices.find? (fun d => d.api_key == key && d.is_active) = none := by
      apply List.find?_eq_none.2
      intro d hd hbad
      rw [Bool.and_eq_true] at hbad
      have hactive := hno d hd (by simpa using hbad.1)
      rw [hactive] at hbad
      exact absurd hbad.2 (by simp)
    simp [verify_api_key, hnone]
  · intro d rest h
    cases hfind : devices.find? (fun d => d.api_key == key && d.is_active) with
    | none => simp [verify_api_key, hfind] at h
    | some d0 =>
        have hp := List.find?_some hfind
        rw [Bool.and_eq_true] at hp
        simp only [verify_api_key, hfind] at h
        cases h
        refine ⟨by simpa using hp.1, hp.2, rfl, ?_⟩
        exact updateFirst_mem _ _ devices d0 hfind

/-- Witness for C7: the deactivated device's credential is refused; the
active device authenticates with its last-seen refreshed. -/
theorem verify_api_key_auth_witness :
    verify_api_key [devDInactive] "K1" 7 = .error 401 ∧
    (devDSeen.api_key = "K1" ∧ devDSeen.is_active = true ∧
      devDSeen.last_seen = some 7 ∧ devDSeen ∈ [devDSeen]) :=
  ⟨(verify_api_key_auth [devDInactive] "K1" 7).1 (by decide),
   (verify_api_key_auth [devD] "K1" 7).2 devDSeen [devDSeen] rfl⟩

end Sentinel
